import Mathlib

/-!
Verification of the TP-OPP-APP extraction worker.

Shallow embedding of the worker processes in src/worker/app: the database
access layer (db.py: fetch_one_job, mark_job), the assembly layer
(main.py: ensure_statements, insert_lines, the per-job body of main), and
the extraction engine (parser.py: parse_mvp with its caption patterns and
number extraction).

The PostgreSQL connection is modelled as a pair of database states, the
committed one and the current uncommitted view, plus a flag recording
whether the open server transaction is in the aborted state.  A psycopg
execute call is modelled faithfully to the client library: the number of
percent-s placeholders in the SQL template is compared with the number of
parameters passed, and a mismatch raises a client-side ProgrammingError
that leaves the server transaction untouched; executing on an aborted
transaction raises InFailedSqlTransaction.  Commit on an aborted
transaction rolls back (PostgreSQL behaviour of COMMIT after an error).

External collaborators (the HTTP object storage read in download_pdf and
the PDF text extraction of the fitz library) enter as parameters: a job
processing run takes the retrieval outcome as an argument, and a document
is a list of pages, each a list of text blocks with bounding boxes, which
is what parser.py reads off the fitz document.
-/

set_option maxRecDepth 4000

/-- Python exception values that the worker code can raise or observe. -/
inductive PyErr where
  | programmingError (msg : String)
  | inFailedSqlTransaction
  | retrievalError (msg : String)
  deriving Repr, DecidableEq

/-- str(e) for the exceptions above, as stored into the job error column. -/
def strOfErr : PyErr → String
  | .programmingError msg => msg
  | .inFailedSqlTransaction => "current transaction is aborted, commands ignored until end of transaction block"
  | .retrievalError msg => msg

/-- A bounding box: the four float coordinates fitz reports for a block. -/
def BBox := Rat × Rat × Rat × Rat

instance : DecidableEq BBox := by unfold BBox; infer_instance

instance : Repr BBox := by unfold BBox; infer_instance

/-- One value of the Python parameter tuple handed to cursor execute.
Used to count parameters against placeholders the way psycopg does. -/
inductive PyVal where
  | int (n : Int)
  | str (s : String)
  | null
  | rat (q : Rat)
  | json (b : BBox)
  deriving Repr, DecidableEq

/-- Encode an optional string parameter (None becomes SQL NULL). -/
def PyVal.ofOptStr : Option String → PyVal
  | none => .null
  | some s => .str s

/-- The Python slice of a string to its first n characters (stops at the
end of the string when it is shorter). -/
def strTake (n : Nat) (s : String) : String := String.mk (s.toList.take n)

/-- Encode an optional numeric parameter (None becomes SQL NULL). -/
def PyVal.ofOptRat : Option Rat → PyVal
  | none => .null
  | some q => .rat q

/-- A row of the job table (section 6 of the spec: identity, status,
creation timestamp, document reference, filing reference, optional ruleset
reference, error text, last-update timestamp). -/
structure JobRow where
  id : Nat
  storage_path : String
  filing_id : Nat
  ruleset_id : Option String
  status : String
  error : Option String
  created_at : Nat
  updated_at : Nat
  deriving Repr, DecidableEq

/-- A row of the statement table. -/
structure StatementRow where
  id : Nat
  filing_id : Nat
  type : String
  language : String
  currency : String
  deriving Repr, DecidableEq

/-- A row of the anchor table. -/
structure AnchorRow where
  id : Nat
  filing_id : Nat
  source_type : String
  page : Nat
  bbox : BBox
  snippet : String
  deriving Repr, DecidableEq

/-- A row of the statement_line table. -/
structure StatementLineRow where
  id : Nat
  statement_id : Option Nat
  ref_code : Option String
  caption : String
  side : Option String
  period : Nat
  value : Option Rat
  unit : String
  status : String
  deriving Repr, DecidableEq

/-- A row of the datum_anchor link table. -/
structure DatumAnchorRow where
  datum_table : String
  datum_id : Nat
  anchor_id : Nat
  deriving Repr, DecidableEq

/-- The visible database state: the five tables the worker touches, the
sequences producing fresh row identities, and the now() clock value. -/
structure DB where
  jobs : List JobRow
  statements : List StatementRow
  anchors : List AnchorRow
  statement_lines : List StatementLineRow
  datum_anchors : List DatumAnchorRow
  next_statement_id : Nat
  next_anchor_id : Nat
  next_line_id : Nat
  now : Nat
  deriving Repr, DecidableEq

/-- A psycopg connection opened with autocommit False: the committed
database, the current view including uncommitted writes of the open
transaction, and whether the server transaction is aborted. -/
structure Conn where
  committed : DB
  cur : DB
  aborted : Bool
  deriving Repr, DecidableEq

/-- A freshly connected (or just committed or rolled back) connection. -/
def Conn.fresh (db : DB) : Conn := ⟨db, db, false⟩

/-- conn.commit(): COMMIT on an aborted transaction rolls back. -/
def Conn.commit (c : Conn) : Conn :=
  if c.aborted then ⟨c.committed, c.committed, false⟩ else ⟨c.cur, c.cur, false⟩

/-- conn.rollback(). -/
def Conn.rollback (c : Conn) : Conn := ⟨c.committed, c.committed, false⟩

/-- UPDATE job SET status = given WHERE id = given (the lease update in
fetch_one_job: it touches only the status column). -/
def DB.setJobStatus (db : DB) (jid : Nat) (st : String) : DB :=
  { db with jobs := db.jobs.map fun j => if j.id = jid then { j with status := st } else j }

/-- UPDATE job SET status, error, updated_at = now() WHERE id = given
(the update in mark_job). -/
def DB.markJobRow (db : DB) (jid : Nat) (st : String) (err : Option String) : DB :=
  { db with jobs := db.jobs.map fun j =>
      if j.id = jid then { j with status := st, error := err, updated_at := db.now } else j }

/-- The payload dict returned by fetch_one_job; ruleset_id is
coalesce(ruleset_id cast to text, empty string) as in the SELECT. -/
structure JobPayload where
  id : Nat
  storage_path : String
  filing_id : Nat
  ruleset_id : String
  deriving Repr, DecidableEq

/-- One libpq result of a statement, as psycopg3 keeps them: a
COMMAND_OK result that carries no rows (for example the result of
BEGIN), or a row set. -/
inductive PgResult where
  | commandOk
  | rows (r : List JobRow)
  deriving Repr, DecidableEq

/-- psycopg3 cur.fetchone(): returns the next row of the result the
cursor is positioned on, and raises a client-side ProgrammingError
(whose message reads: the last operation did not produce a result) when
that result returned no rows. -/
def pgFetchone : PgResult → Except PyErr (Option JobRow)
  | .commandOk => .error (.programmingError "the last operation did not produce a result")
  | .rows r => .ok r.head?

/-- The results of the compound statement of fetch_one_job.  The
statement has no parameters, so psycopg3 executes it through the simple
query protocol, which allows several statements and yields one result
per statement: first the COMMAND_OK result of BEGIN, then the row
result of the SELECT (the oldest queued job by created_at, first in
table order on ties, locked FOR UPDATE SKIP LOCKED).  Unlike psycopg2,
which surfaces only the last result, psycopg3 keeps every result and
leaves the cursor positioned on the first one. -/
def fetchJobResults (db : DB) : List PgResult :=
  [.commandOk,
   .rows ((db.jobs.filter fun j => j.status == "queued").argmin (fun j => j.created_at)).toList]

/-- db.py fetch_one_job: execute the compound BEGIN-SELECT statement,
fetch one row, roll back and return None when no row came back, and
otherwise update that job to processing, commit and return its payload.
Because the cursor stands on the COMMAND_OK result of BEGIN, the
cur.fetchone() call raises on every invocation before any row is read:
the branches below the fetch are unreachable, the connection keeps its
transaction open but healthy, and the exception propagates to the
caller (in main the lease call sits outside the try/except). -/
def fetch_one_job (c : Conn) : Except (PyErr × Conn) (Conn × Option JobPayload) :=
  if c.aborted then .error (.inFailedSqlTransaction, c)
  else
    match pgFetchone ((fetchJobResults c.cur).headD .commandOk) with
    | .error e => .error (e, c)
    | .ok none => .ok (c.rollback, none)
    | .ok (some j) =>
      let c2 : Conn := { c with cur := c.cur.setJobStatus j.id "processing" }
      .ok (c2.commit, some ⟨j.id, j.storage_path, j.filing_id, j.ruleset_id.getD ""⟩)

/-- Placeholder count of the mark_job UPDATE template: status, error and
id are bound; updated_at is the SQL expression now(). -/
def markJobPlaceholders : Nat := 3

/-- The Python parameter tuple of the mark_job UPDATE: (status, error, job_id). -/
def markJobParams (jid : Nat) (st : String) (err : Option String) : List PyVal :=
  [.str st, PyVal.ofOptStr err, .int jid]

/-- db.py mark_job: UPDATE job SET status, error, updated_at = now()
WHERE id = given, then commit on the same connection. -/
def mark_job (c : Conn) (jid : Nat) (st : String) (err : Option String) : Except (PyErr × Conn) Conn :=
  if (markJobParams jid st err).length ≠ markJobPlaceholders then
    .error (.programmingError "the query placeholder count differs from the parameters passed", c)
  else if c.aborted then .error (.inFailedSqlTransaction, c)
  else .ok (Conn.commit { c with cur := c.cur.markJobRow jid st err })

/-- The anchor dicts parser.py emits and insert_lines consumes: keys
source_type (get with default text), page, bbox, snippet. -/
structure AnchorDict where
  source_type : String
  page : Nat
  bbox : BBox
  snippet : String
  deriving Repr, DecidableEq

/-- The line dicts parser.py emits (StatementLine model_dump merged with
an anchor_indices list) and insert_lines consumes. -/
structure LineDict where
  statement_type : String
  ref_code : Option String
  caption : String
  side : Option String
  period : String
  value : Option Rat
  unit : String
  status : String
  anchor_indices : List Nat
  deriving Repr, DecidableEq

/-- Does a statement of the given kind exist for the filing (the SELECT 1
checks in ensure_statements)? -/
def statementExists (db : DB) (fid : Nat) (ty : String) : Bool :=
  db.statements.any fun s => s.filing_id == fid && s.type == ty

/-- INSERT INTO statement (filing_id, type, language, currency) with the
literals en and EUR; one placeholder, one parameter. -/
def DB.insertStatement (db : DB) (fid : Nat) (ty : String) : DB :=
  { db with
    statements := db.statements ++ [⟨db.next_statement_id, fid, ty, "en", "EUR"⟩],
    next_statement_id := db.next_statement_id + 1 }

/-- main.py ensure_statements: for balance_sheet and then pnl, SELECT 1
for the filing and kind and INSERT only when no row came back; then
commit on the connection. -/
def ensure_statements (c : Conn) (fid : Nat) : Except (PyErr × Conn) Conn :=
  if c.aborted then .error (.inFailedSqlTransaction, c)
  else
    let db1 := if statementExists c.cur fid "balance_sheet" then c.cur
               else c.cur.insertStatement fid "balance_sheet"
    let db2 := if statementExists db1 fid "pnl" then db1
               else db1.insertStatement fid "pnl"
    .ok (Conn.commit { c with cur := db2 })

/-- INSERT INTO anchor (filing_id, source_type, page, bbox, snippet)
RETURNING id; five placeholders, five parameters; the snippet parameter
is truncated to 800 characters by the Python slice. -/
def DB.insertAnchor (db : DB) (fid : Nat) (a : AnchorDict) : DB × Nat :=
  ({ db with
     anchors := db.anchors ++ [⟨db.next_anchor_id, fid, a.source_type, a.page, a.bbox, strTake 800 a.snippet⟩],
     next_anchor_id := db.next_anchor_id + 1 }, db.next_anchor_id)

/-- The anchor loop of insert_lines: insert each anchor in input order,
appending the returned identity to anc_ids. -/
def insertAnchorsLoop (fid : Nat) : Conn → List AnchorDict → List Nat → Except (PyErr × Conn) (Conn × List Nat)
  | c, [], ids => .ok (c, ids)
  | c, a :: rest, ids =>
    if c.aborted then .error (.inFailedSqlTransaction, c)
    else
      let p := c.cur.insertAnchor fid a
      insertAnchorsLoop fid { c with cur := p.1 } rest (ids ++ [p.2])

/-- Placeholder count of the statement_line INSERT template in
insert_lines.  The template binds filing_id and type inside the scalar
subquery selecting the statement identity, and then six more values; the
column list names eight columns (statement_id, ref_code, caption, side,
period, value, unit, status) but the VALUES row supplies only seven
expressions, so the template carries eight percent-s markers in total. -/
def lineInsertPlaceholders : Nat := 8

/-- The Python parameter tuple passed with that template: filing_id and
statement_type for the subquery, then ref_code, caption, side, the period
ordinal (0 for current, 1 otherwise), value, unit (default EUR) and
status (default extracted) — nine parameters. -/
def lineInsertParams (fid : Nat) (line : LineDict) : List PyVal :=
  [.int fid, .str line.statement_type, PyVal.ofOptStr line.ref_code, .str line.caption,
   PyVal.ofOptStr line.side, .int (if line.period = "current" then 0 else 1),
   PyVal.ofOptRat line.value, .str line.unit, .str line.status]

/-- The line loop of insert_lines: each iteration executes the
statement_line INSERT and then inserts one datum_anchor link per declared
anchor index.  psycopg compares the parameter count with the placeholder
count client-side before anything reaches the server, so a mismatch
raises ProgrammingError and leaves the transaction state untouched; were
the counts equal, the server would still reject the template, whose
column list is longer than its VALUES row, aborting the transaction. -/
def insertLineRowsLoop (fid : Nat) (_ancIds : List Nat) : Conn → List LineDict → Except (PyErr × Conn) Conn
  | c, [] => .ok c
  | c, line :: _ =>
    if (lineInsertParams fid line).length ≠ lineInsertPlaceholders then
      .error (.programmingError "the query has 8 placeholders but 9 parameters were passed", c)
    else if c.aborted then .error (.inFailedSqlTransaction, c)
    else .error (.programmingError "INSERT has more target columns than expressions", { c with aborted := true })

/-- main.py insert_lines: insert every anchor first capturing identities
in order, then run the line loop, then commit the connection. -/
def insert_lines (c : Conn) (fid : Nat) (lines : List LineDict) (anchors : List AnchorDict) : Except (PyErr × Conn) Conn := do
  let p ← insertAnchorsLoop fid c anchors []
  let c2 ← insertLineRowsLoop fid p.2 p.1 lines
  .ok c2.commit

/-- One token of the caption regular expressions in parser.py: a literal
character (matched case-insensitively, re.I), the one-or-more whitespace
class, or the dot-star wildcard (any characters except newline). -/
inductive RTok where
  | lit (c : Char)
  | ws
  | star
  deriving Repr, DecidableEq

/-- The Python regex whitespace class. -/
def isPyWs (c : Char) : Bool :=
  c == ' ' || c == '\t' || c == '\n' || c == '\r' || c == Char.ofNat 11 || c == Char.ofNat 12

/-- Fuel-indexed backtracking matcher for the three constructs above:
does the token sequence match a prefix of the character sequence?  Every
recursive call shrinks the combined length of the two sequences, so with
fuel exceeding that combined length the zero-fuel case is unreachable
and the fuel is only a structural termination device. -/
def rmatchF : Nat → List RTok → List Char → Bool
  | 0, _, _ => false
  | _ + 1, [], _ => true
  | _ + 1, .lit _ :: _, [] => false
  | f + 1, .lit a :: ts, c :: cs => (a.toLower == c.toLower && rmatchF f ts cs : Bool)
  | _ + 1, .ws :: _, [] => false
  | f + 1, .ws :: ts, c :: cs => (isPyWs c && (rmatchF f ts cs || rmatchF f (.ws :: ts) cs) : Bool)
  | f + 1, .star :: ts, [] => rmatchF f ts []
  | f + 1, .star :: ts, c :: cs =>
      (rmatchF f ts (c :: cs) || (!(c == '\n') && rmatchF f (.star :: ts) cs) : Bool)

/-- The matcher at adequate fuel. -/
def rmatch (ts : List RTok) (cs : List Char) : Bool := rmatchF (ts.length + cs.length + 1) ts cs

/-- re.search: does the pattern match starting at any position? -/
def rsearch (ts : List RTok) : List Char → Bool
  | [] => rmatch ts []
  | c :: cs => (rmatch ts (c :: cs) || rsearch ts cs : Bool)

/-- A run of literal characters. -/
def litToks (s : String) : List RTok := s.toList.map RTok.lit

/-- Pattern Total whitespace assets. -/
def patTotalAssets : List RTok := litToks "Total" ++ [.ws] ++ litToks "assets"

/-- Pattern Total whitespace du whitespace bilan. -/
def patTotalDuBilan : List RTok :=
  litToks "Total" ++ [.ws] ++ litToks "du" ++ [.ws] ++ litToks "bilan"

/-- Pattern Summe whitespace der whitespace Aktiva. -/
def patSummeAktiva : List RTok :=
  litToks "Summe" ++ [.ws] ++ litToks "der" ++ [.ws] ++ litToks "Aktiva"

/-- Pattern Total whitespace equity whitespace and whitespace liabilities. -/
def patTotalEquityLiabilities : List RTok :=
  litToks "Total" ++ [.ws] ++ litToks "equity" ++ [.ws] ++ litToks "and" ++ [.ws] ++ litToks "liabilities"

/-- Pattern Total des capitaux propres dot-star passif. -/
def patTotalCapitauxPassif : List RTok :=
  litToks "Total" ++ [.ws] ++ litToks "des" ++ [.ws] ++ litToks "capitaux" ++ [.ws] ++
    litToks "propres" ++ [.star] ++ litToks "passif"

/-- Pattern Summe des Eigenkapitals dot-star Passiva. -/
def patSummeEigenkapitalsPassiva : List RTok :=
  litToks "Summe" ++ [.ws] ++ litToks "des" ++ [.ws] ++ litToks "Eigenkapitals" ++ [.star] ++ litToks "Passiva"

/-- The CAPTIONS dict of parser.py, in insertion order. -/
def CAPTIONS : List (String × List (List RTok)) :=
  [("total_assets", [patTotalAssets, patTotalDuBilan, patSummeAktiva]),
   ("total_equity_liabilities",
    [patTotalEquityLiabilities, patTotalCapitauxPassif, patSummeEigenkapitalsPassiva])]

/-- One text block of a page as fitz reports it: bounding box and text. -/
structure PBlock where
  bbox : BBox
  text : String
  deriving Repr, DecidableEq

/-- A document: the list of pages, each its list of text blocks. -/
def Doc := List (List PBlock)

instance : DecidableEq Doc := by unfold Doc; infer_instance

instance : Repr Doc := by unfold Doc; infer_instance

/-- A block as extract_text_blocks emits it, tagged with its 0-based page. -/
structure Block where
  page : Nat
  bbox : BBox
  text : String
  deriving Repr, DecidableEq

/-- Helper iterating pages with their 0-based page number. -/
def pagesBlocks : Nat → List (List PBlock) → List Block
  | _, [] => []
  | pno, pg :: rest => pg.map (fun b => ⟨pno, b.bbox, b.text⟩) ++ pagesBlocks (pno + 1) rest

/-- parser.py extract_text_blocks: flatten the per-page block lists. -/
def extract_text_blocks (doc : Doc) : List Block := pagesBlocks 0 doc

/-- parser.py find_first: the first block whose text matches any of the
given patterns (the numeric index also returned in Python is unused by
the caller and dropped here). -/
def find_first (doc : Doc) (patterns : List (List RTok)) : Option Block :=
  (extract_text_blocks doc).find? fun blk => patterns.any fun pat => rsearch pat blk.text.toList

/-- Modelled from fitz: page.get_text in text mode, rendered as the block
texts of the page joined by newlines. -/
def pageText (page : List PBlock) : String :=
  String.intercalate "\n" (page.map fun b => b.text)

/-- A character of the numeric-token tail class: digits, whitespace,
dots and commas. -/
def isNumTail (c : Char) : Bool := c.isDigit || isPyWs c || c == '.' || c == ','

/-- re.findall of the numeric-token pattern (optional minus, one digit,
then at least two tail-class characters): scan left to right, at each
position try the token with greedy maximal tail, emit it and continue
past it on success, advance one character on failure. -/
def numScanF : Nat → List Char → List String
  | _, [] => []
  | 0, _ => []
  | f + 1, c :: cs =>
    if c == '-' then
      match cs with
      | [] => []
      | d :: rest =>
        if d.isDigit then
          let tail := rest.takeWhile isNumTail
          if tail.length ≥ 2 then
            String.mk (c :: d :: tail) :: numScanF f (rest.drop tail.length)
          else numScanF f cs
        else numScanF f cs
    else if c.isDigit then
      let tail := cs.takeWhile isNumTail
      if tail.length ≥ 2 then
        String.mk (c :: tail) :: numScanF f (cs.drop tail.length)
      else numScanF f cs
    else numScanF f cs

/-- The scan at adequate fuel: every recursive call of numScanF moves
past at least one character, so fuel equal to the length is exact and
the zero-fuel case is unreachable. -/
def numScan (cs : List Char) : List String := numScanF cs.length cs

/-- The nums list of parse_mvp for a page text. -/
def findNums (s : String) : List String := numScan s.toList

/-- The raw cleanup in parse_mvp: delete spaces, delete dots, then turn
commas into dots. -/
def pyCleanRaw (s : String) : String :=
  String.mk (((s.toList.filter fun c => !(c == ' ')).filter fun c => !(c == '.')).map
    fun c => if c == ',' then '.' else c)

/-- Value of a digit run. -/
def digitsToNat (cs : List Char) : Nat :=
  cs.foldl (fun acc c => acc * 10 + (c.toNat - 48)) 0

/-- Python float() on the cleaned token alphabet (optional minus, digits,
dots, residual whitespace): strips surrounding whitespace, then accepts an
optional sign, an integer part, optionally a dot and a fractional part,
with at least one digit overall and nothing left over; anything else
(such as two dots) raises and yields None at the caller. -/
def pyFloat? (s : String) : Option Rat :=
  let cs := ((s.toList.dropWhile isPyWs).reverse.dropWhile isPyWs).reverse
  let sp := match cs with
    | '-' :: rest => ((-1 : Rat), rest)
    | _ => ((1 : Rat), cs)
  let ip := sp.2.takeWhile Char.isDigit
  let cs2 := sp.2.drop ip.length
  match cs2 with
  | [] =>
    if ip.isEmpty then none
    else some (sp.1 * (digitsToNat ip : Rat))
  | '.' :: rest =>
    let fp := rest.takeWhile Char.isDigit
    if !(rest.drop fp.length).isEmpty then none
    else if ip.isEmpty && fp.isEmpty then none
    else some (sp.1 * ((digitsToNat ip : Rat) + (digitsToNat fp : Rat) / ((10 : Rat) ^ fp.length)))
  | _ => none

/-- The extraction engine result: the anchors list and the lines list. -/
structure ExtractionResult where
  anchors : List AnchorDict
  lines : List LineDict
  deriving Repr, DecidableEq

/-- The caption_map dict of parse_mvp. -/
def caption_map (key : String) : String × String :=
  if key == "total_assets" then ("Total Assets", "assets")
  else ("Total Equity and Liabilities", "liabilities")

/-- One iteration of the CAPTIONS loop in parse_mvp: when find_first
locates a block, read the text of its page, collect numeric tokens, take
the last one and try to parse it (None on no token or parse failure),
append one anchor (1-based page, snippet cut to 200 characters) and one
line declaring exactly the index of that anchor; the StatementLine model
defaults fill ref_code None, unit EUR and status extracted. -/
def parseStep (doc : Doc) (st : List AnchorDict × List LineDict) (entry : String × List (List RTok)) :
    List AnchorDict × List LineDict :=
  match find_first doc entry.2 with
  | none => st
  | some blk =>
    let text := pageText (doc.getD blk.page [])
    let nums := findNums text
    let value : Option Rat :=
      match nums.getLast? with
      | none => none
      | some last => pyFloat? (pyCleanRaw last)
    let ancIdx := st.1.length
    let cm := caption_map entry.1
    (st.1 ++ [⟨"text", blk.page + 1, blk.bbox, strTake 200 blk.text⟩],
     st.2 ++ [⟨"balance_sheet", none, cm.1, some cm.2, "current", value, "EUR", "extracted", [ancIdx]⟩])

/-- parser.py parse_mvp: fold the loop above over the CAPTIONS entries. -/
def parse_mvp (doc : Doc) : ExtractionResult :=
  let r := CAPTIONS.foldl (parseStep doc) ([], [])
  ⟨r.1, r.2⟩

/-- The body of one main-loop iteration after a job was leased: ensure
the statement containers, retrieve the document (external collaborator,
passed as its outcome), extract, persist, and report success; any raise
along the way falls to the handler, which reports failure with str of
the exception on the same connection — and propagates whatever report
itself raises, as the Python except block would. -/
def processJob (c : Conn) (job : JobPayload) (retrieval : Except PyErr Doc) : Except (PyErr × Conn) Conn :=
  let attempt : Except (PyErr × Conn) Conn := do
    let c1 ← ensure_statements c job.filing_id
    match retrieval with
    | .error e => .error (e, c1)
    | .ok doc =>
      let r := parse_mvp doc
      let c2 ← insert_lines c1 job.filing_id r.lines r.anchors
      mark_job c2 job.id "succeeded" none
  match attempt with
  | .ok cEnd => .ok cEnd
  | .error p => mark_job p.2 job.id "failed" (some (strOfErr p.1))

/-- n successive lease attempts against a shared backlog, each a fresh
connection calling fetch_one_job.  A raise ends the iteration with the
payloads collected so far (the raising caller crashes without leasing
anything), and a None return means the backlog reported no queued
job. -/
def leaseMany : Nat → DB → List JobPayload × DB
  | 0, db => ([], db)
  | Nat.succ n, db =>
    match fetch_one_job (Conn.fresh db) with
    | .ok (c, some p) =>
      let r := leaseMany n c.committed
      (p :: r.1, r.2)
    | .ok (c, none) => ([], c.committed)
    | .error _ => ([], db)

/-- A sequence of report calls for one job identity, each on a fresh
connection, stopping at the first raise. -/
def runReports (jid : Nat) : DB → List (String × Option String) → Except (PyErr × Conn) DB
  | db, [] => .ok db
  | db, call :: rest =>
    match mark_job (Conn.fresh db) jid call.1 call.2 with
    | .ok c => runReports jid c.committed rest
    | .error e => .error e

/-- One iteration of the while-True loop of main: a fresh connection, a
lease, and for a leased job the try/except per-job body.  An exception
from the lease call itself stands outside the try/except, so it
propagates after the connection context manager rolls back, and the
worker process dies; the Bool of a normal outcome reports whether a job
was processed (False means the loop would sleep and poll again). -/
def workerIteration (db : DB) (retrieval : Except PyErr Doc) : Except (PyErr × DB) (DB × Bool) :=
  match fetch_one_job (Conn.fresh db) with
  | .error p => .error (p.1, p.2.rollback.committed)
  | .ok (c, none) => .ok (c.committed, false)
  | .ok (c, some job) =>
    match processJob c job retrieval with
    | .ok c2 => .ok (c2.committed, true)
    | .error p2 => .error (p2.1, p2.2.rollback.committed)

/-- A database holding one processing job (identity 1) for filing 1, the
statement tables empty: the state right after that job was leased. -/
def filingOnlyDB : DB :=
  ⟨[⟨1, "f1.pdf", 1, none, "processing", none, 5, 5⟩], [], [], [], [], 10, 20, 30, 99⟩

/-- An empty database. -/
def emptyDB : DB := ⟨[], [], [], [], [], 0, 0, 0, 0⟩

/-- A backlog of two queued jobs (the younger one first in table order)
and one failed job. -/
def backlogDB : DB :=
  ⟨[⟨1, "a.pdf", 1, none, "queued", none, 5, 5⟩,
    ⟨2, "b.pdf", 2, some "rs", "queued", none, 3, 3⟩,
    ⟨3, "c.pdf", 3, none, "failed", some "boom", 1, 1⟩], [], [], [], [], 10, 20, 30, 99⟩

/-- A one-page document whose single block is the caption Total assets
with no digit anywhere on the page. -/
def docTotalAssetsOnly : Doc := [[⟨(0, 0, 100, 10), "Total assets"⟩]]

/-- An extraction anchor for the single-line scenario. -/
def ancTA : AnchorDict := ⟨"text", 3, (0, 0, 1, 1), "Total assets 12 345"⟩

/-- An extracted line declaring the anchor at input position 0. -/
def lineTA : LineDict :=
  ⟨"balance_sheet", none, "Total Assets", some "assets", "current", some 12345, "EUR", "extracted", [0]⟩

/-- Anchor A0 of the anchor-indexing scenario. -/
def ancA0 : AnchorDict := ⟨"text", 1, (0, 0, 1, 1), "A0 snippet"⟩

/-- Anchor A1 of the anchor-indexing scenario. -/
def ancA1 : AnchorDict := ⟨"text", 2, (0, 2, 1, 3), "A1 snippet"⟩

/-- A line declaring exactly the anchor index 1 (should link to A1). -/
def lineIdx1 : LineDict :=
  ⟨"balance_sheet", none, "Total Assets", some "assets", "current", some 5, "EUR", "extracted", [1]⟩

/-- Run the failing persist call of job 1 on filingOnlyDB and then the
report of the failure on the same connection, as the worker loop does;
return the committed anchor count and job rows, None when either call
behaves otherwise. -/
def C1run : Option (Nat × List (String × Option String)) :=
  match insert_lines (Conn.fresh filingOnlyDB) 1 [lineTA] [ancTA] with
  | .ok _ => none
  | .error (e, c1) =>
    match mark_job c1 1 "failed" (some (strOfErr e)) with
    | .error _ => none
    | .ok c2 => some (c2.committed.anchors.length, c2.committed.jobs.map fun j => (j.status, j.error))

/-- Run job 1 of filingOnlyDB with a failing document retrieval; return
the job rows, the statement rows of filing 1, and the line and anchor
counts of the committed state, None when processing behaves otherwise. -/
def C3run : Option (List (String × Option String) × List StatementRow × Nat × Nat) :=
  match processJob (Conn.fresh filingOnlyDB) ⟨1, "f1.pdf", 1, ""⟩ (.error (.retrievalError "document not found")) with
  | .error _ => none
  | .ok c => some (c.committed.jobs.map (fun j => (j.status, j.error)),
                   c.committed.statements.filter (fun s => s.filing_id == 1),
                   c.committed.statement_lines.length, c.committed.anchors.length)

/-- Run the persist call with anchors A0 and A1 and the single line
declaring index 1; return the raised error together with the anchor,
line and link tables of the transaction view at raise time, None when
the call returns normally. -/
def C6run : Option (PyErr × List AnchorRow × List StatementLineRow × List DatumAnchorRow) :=
  match insert_lines (Conn.fresh filingOnlyDB) 1 [lineIdx1] [ancA0, ancA1] with
  | .ok _ => none
  | .error (e, c1) => some (e, c1.cur.anchors, c1.cur.statement_lines, c1.cur.datum_anchors)

/-- Number of statement rows of the given kind for the filing. -/
def kindCount (db : DB) (fid : Nat) (ty : String) : Nat :=
  (db.statements.filter fun s => s.filing_id == fid && s.type == ty).length

/-- C1: the claim is refuted by the code and the spec is the clear
intent, so this records the bug.  On filingOnlyDB (no anchor rows), the
persist call with one anchor and one line inserts the anchor, then the
statement_line INSERT raises the psycopg client-side placeholder-count
ProgrammingError, which leaves the open transaction healthy; the worker
then records the failure through mark_job on the same connection, whose
commit makes the anchor of the failed call durable: the committed state
afterwards holds one anchor row, against the claim that no anchor from
the call is ever visible. -/
theorem C1_failed_persist_commits_partial_anchor :
    C1run = some (1, [("failed", some "the query has 8 placeholders but 9 parameters were passed")]) := by
  rfl

/-- C6: the claim is refuted by the code and the spec is the clear
intent, so this records the bug.  Given anchors A0 and A1 and one line
declaring anchor index 1, both anchors are inserted first with their
identities captured in input order (rows 20 and 21), but the line INSERT
raises the placeholder-count ProgrammingError before any statement_line
or datum_anchor row is created, so no persisted link to A1 (or any
anchor) ever exists. -/
theorem C6_line_insert_raises_before_link :
    C6run = some (.programmingError "the query has 8 placeholders but 9 parameters were passed",
      [⟨20, 1, "text", 1, (0, 0, 1, 1), "A0 snippet"⟩, ⟨21, 1, "text", 2, (0, 2, 1, 3), "A1 snippet"⟩],
      [], []) := by
  rfl

/-- C3 counterexample: on filingOnlyDB, whose statement table is empty,
a run whose retrieval raises a not-found error leaves the job failed
with the retrieval text — but two Statement rows for the filing are
committed, because main ensures the statement containers before it
attempts the download; this refutes the part of the claim that says no
Statement row is created by the run. -/
theorem C3_statements_created_despite_retrieval_failure :
    C3run = some ([("failed", some "document not found")],
      [⟨10, 1, "balance_sheet", "en", "EUR"⟩, ⟨11, 1, "pnl", "en", "EUR"⟩], 0, 0) := by
  rfl

/-- C10: on a document whose only block carries the caption Total assets
and whose page shows no parsable numeric token, parse_mvp emits exactly
one line, and that line combines status extracted (the model default the
engine never overrides) with an absent value. -/
theorem C10_extracted_status_with_absent_value :
    ((parse_mvp docTotalAssetsOnly).lines.map fun l => (l.status, l.value, l.caption))
      = [("extracted", none, "Total Assets")] := by
  rfl

theorem kindCount_insert_same (db : DB) (fid : Nat) (ty : String) :
    kindCount (db.insertStatement fid ty) fid ty = kindCount db fid ty + 1 := by
  simp [kindCount, DB.insertStatement, List.filter_append]

theorem kindCount_insert_other (db : DB) (fid : Nat) (ty ty2 : String) (h : ty ≠ ty2) :
    kindCount (db.insertStatement fid ty) fid ty2 = kindCount db fid ty2 := by
  simp [kindCount, DB.insertStatement, List.filter_append, h]

theorem statementExists_false_kindCount (db : DB) (fid : Nat) (ty : String)
    (h : statementExists db fid ty = false) : kindCount db fid ty = 0 := by
  simp only [statementExists, List.any_eq_false] at h
  simp only [kindCount, List.length_eq_zero, List.filter_eq_nil_iff]
  exact h

theorem statementExists_of_kindCount (db : DB) (fid : Nat) (ty : String)
    (h : 0 < kindCount db fid ty) : statementExists db fid ty = true := by
  simp only [kindCount, List.length_pos] at h
  obtain ⟨s, hs⟩ := List.exists_mem_of_ne_nil _ h
  rw [List.mem_filter] at hs
  simp only [statementExists, List.any_eq_true]
  exact ⟨s, hs.1, hs.2⟩

theorem kindCount_pos_of_exists (db : DB) (fid : Nat) (ty : String)
    (h : statementExists db fid ty = true) : 0 < kindCount db fid ty := by
  simp only [statementExists, List.any_eq_true] at h
  obtain ⟨s, hs, hp⟩ := h
  simp only [kindCount, List.length_pos]
  exact List.ne_nil_of_mem (List.mem_filter.mpr ⟨hs, hp⟩)

theorem exists_kind_of_kindCount_pos (db : DB) (fid : Nat) (ty : String)
    (h : 0 < kindCount db fid ty) :
    ∃ s ∈ db.statements, s.filing_id = fid ∧ s.type = ty := by
  simp only [kindCount, List.length_pos] at h
  obtain ⟨s, hs⟩ := List.exists_mem_of_ne_nil _ h
  rw [List.mem_filter] at hs
  refine ⟨s, hs.1, ?_⟩
  have h2 := hs.2
  simp only [Bool.and_eq_true, beq_iff_eq] at h2
  exact h2

theorem ensure_statements_noop (db : DB) (fid : Nat)
    (hb : statementExists db fid "balance_sheet" = true)
    (hp : statementExists db fid "pnl" = true) :
    ensure_statements (Conn.fresh db) fid = .ok (Conn.fresh db) := by
  simp [ensure_statements, Conn.fresh, Conn.commit, hb, hp]

theorem ensure_statements_fresh_ok (db : DB) (fid : Nat) :
    ∃ db2, ensure_statements (Conn.fresh db) fid = .ok (Conn.fresh db2)
      ∧ db2.jobs = db.jobs ∧ db2.anchors = db.anchors
      ∧ db2.statement_lines = db.statement_lines ∧ db2.datum_anchors = db.datum_anchors
      ∧ db2.now = db.now
      ∧ kindCount db2 fid "balance_sheet" = max (kindCount db fid "balance_sheet") 1
      ∧ kindCount db2 fid "pnl" = max (kindCount db fid "pnl") 1 := by
  by_cases h1 : statementExists db fid "balance_sheet" = true
  · by_cases h2 : statementExists db fid "pnl" = true
    · refine ⟨db, by simp [ensure_statements, Conn.fresh, Conn.commit, h1, h2], rfl, rfl, rfl, rfl, rfl, ?_, ?_⟩
      · have := kindCount_pos_of_exists db fid "balance_sheet" h1; omega
      · have := kindCount_pos_of_exists db fid "pnl" h2; omega
    · rw [Bool.not_eq_true] at h2
      have h2b : statementExists db fid "pnl" = false := h2
      refine ⟨db.insertStatement fid "pnl", ?_, rfl, rfl, rfl, rfl, rfl, ?_, ?_⟩
      · simp [ensure_statements, Conn.fresh, Conn.commit, h1, h2b]
      · rw [kindCount_insert_other db fid "pnl" "balance_sheet" (by decide)]
        have := kindCount_pos_of_exists db fid "balance_sheet" h1; omega
      · rw [kindCount_insert_same, statementExists_false_kindCount db fid "pnl" h2b]; omega
  · rw [Bool.not_eq_true] at h1
    have h1b : statementExists db fid "balance_sheet" = false := h1
    have hsame : ∀ ty2, ty2 ≠ "balance_sheet" →
        statementExists (db.insertStatement fid "balance_sheet") fid ty2 = statementExists db fid ty2 := by
      intro ty2 hty
      simp [statementExists, DB.insertStatement, List.any_append, Ne.symm hty]
    by_cases h2 : statementExists db fid "pnl" = true
    · refine ⟨db.insertStatement fid "balance_sheet", ?_, rfl, rfl, rfl, rfl, rfl, ?_, ?_⟩
      · simp [ensure_statements, Conn.fresh, Conn.commit, h1b, hsame "pnl" (by decide), h2]
      · rw [kindCount_insert_same, statementExists_false_kindCount db fid "balance_sheet" h1b]; omega
      · rw [kindCount_insert_other db fid "balance_sheet" "pnl" (by decide)]
        have := kindCount_pos_of_exists db fid "pnl" h2; omega
    · rw [Bool.not_eq_true] at h2
      have h2b : statementExists db fid "pnl" = false := h2
      refine ⟨(db.insertStatement fid "balance_sheet").insertStatement fid "pnl", ?_, rfl, rfl, rfl, rfl, rfl, ?_, ?_⟩
      · simp [ensure_statements, Conn.fresh, Conn.commit, h1b, hsame "pnl" (by decide), h2b]
      · rw [kindCount_insert_other _ fid "pnl" "balance_sheet" (by decide), kindCount_insert_same,
            statementExists_false_kindCount db fid "balance_sheet" h1b]
        omega
      · rw [kindCount_insert_same, kindCount_insert_other _ fid "balance_sheet" "pnl" (by decide),
            statementExists_false_kindCount db fid "pnl" h2b]
        omega

/-- C5: confirmed.  Starting from any database holding at most one
statement of each kind for the filing (in particular a fresh filing with
none), one ensure_statements call yields exactly one balance_sheet and
exactly one pnl Statement for the filing, and a second (hence any later)
call returns with the database unchanged — a no-op, not a duplicate
insert. -/
theorem C5_ensure_statements_idempotent (db : DB) (fid : Nat)
    (hb : kindCount db fid "balance_sheet" ≤ 1) (hp : kindCount db fid "pnl" ≤ 1) :
    ∃ db2, ensure_statements (Conn.fresh db) fid = .ok (Conn.fresh db2)
      ∧ kindCount db2 fid "balance_sheet" = 1
      ∧ kindCount db2 fid "pnl" = 1
      ∧ ensure_statements (Conn.fresh db2) fid = .ok (Conn.fresh db2) := by
  obtain ⟨db2, he, hj, ha, hl, hd, hn, hcb, hcp⟩ := ensure_statements_fresh_ok db fid
  have h1 : kindCount db2 fid "balance_sheet" = 1 := by omega
  have h2 : kindCount db2 fid "pnl" = 1 := by omega
  refine ⟨db2, he, h1, h2, ensure_statements_noop db2 fid ?_ ?_⟩
  · exact statementExists_of_kindCount db2 fid "balance_sheet" (by omega)
  · exact statementExists_of_kindCount db2 fid "pnl" (by omega)

/-- C5 witness: the theorem applied to the empty database and filing 7. -/
theorem C5_witness :
    kindCount emptyDB 7 "balance_sheet" ≤ 1 ∧ kindCount emptyDB 7 "pnl" ≤ 1 ∧
    ∃ db2, ensure_statements (Conn.fresh emptyDB) 7 = .ok (Conn.fresh db2)
      ∧ kindCount db2 7 "balance_sheet" = 1
      ∧ kindCount db2 7 "pnl" = 1
      ∧ ensure_statements (Conn.fresh db2) 7 = .ok (Conn.fresh db2) :=
  ⟨by decide, by decide, C5_ensure_statements_idempotent emptyDB 7 (by decide) (by decide)⟩

theorem mark_job_fresh (db : DB) (jid : Nat) (st : String) (err : Option String) :
    mark_job (Conn.fresh db) jid st err = .ok (Conn.fresh (db.markJobRow jid st err)) := by
  simp [mark_job, markJobParams, markJobPlaceholders, Conn.fresh, Conn.commit]

theorem markJobRow_mem_id (db : DB) (jid : Nat) (st : String) (err : Option String)
    (j : JobRow) (hj : j ∈ (db.markJobRow jid st err).jobs) :
    (j.id = jid → j.status = st ∧ j.error = err) ∧ (j.id ≠ jid → j ∈ db.jobs) := by
  simp only [DB.markJobRow, List.mem_map] at hj
  obtain ⟨x, hx, hfx⟩ := hj
  by_cases hxid : x.id = jid
  · rw [if_pos hxid] at hfx
    subst hfx
    exact ⟨fun _ => ⟨rfl, rfl⟩, fun hne => absurd hxid hne⟩
  · rw [if_neg hxid] at hfx
    subst hfx
    exact ⟨fun hid => absurd hid hxid, fun _ => hx⟩

/-- C3 amended: a job whose retrieval raises ends failed with the
retrieval text as its recorded error, and the run creates no
StatementLine and no Anchor row; the two Statement containers for the
filing, however, are ensured (and committed) before the retrieval is
attempted, so they do exist afterward — that is the one part of the
original claim the code refutes. -/
theorem C3_amended_retrieval_failure_marks_failed (db : DB) (job : JobPayload) (msg : String) :
    ∃ c, processJob (Conn.fresh db) job (.error (.retrievalError msg)) = .ok c
      ∧ (∀ j ∈ c.committed.jobs, j.id = job.id → j.status = "failed" ∧ j.error = some msg)
      ∧ (∀ j ∈ c.committed.jobs, j.id ≠ job.id → j ∈ db.jobs)
      ∧ c.committed.statement_lines = db.statement_lines
      ∧ c.committed.anchors = db.anchors
      ∧ c.committed.datum_anchors = db.datum_anchors
      ∧ (∃ s ∈ c.committed.statements, s.filing_id = job.filing_id ∧ s.type = "balance_sheet")
      ∧ (∃ s ∈ c.committed.statements, s.filing_id = job.filing_id ∧ s.type = "pnl") := by
  obtain ⟨db2, he, hj, ha, hl, hd, hn, hcb, hcp⟩ := ensure_statements_fresh_ok db job.filing_id
  refine ⟨Conn.fresh (db2.markJobRow job.id "failed" (some msg)), ?_, ?_, ?_, ?_, ?_, ?_, ?_, ?_⟩
  · simp only [processJob, he, Except.bind, bind, strOfErr]
    exact mark_job_fresh db2 job.id "failed" (some msg)
  · intro j hjm hid
    exact (markJobRow_mem_id db2 job.id "failed" (some msg) j hjm).1 hid
  · intro j hjm hid
    rw [← hj]
    exact (markJobRow_mem_id db2 job.id "failed" (some msg) j hjm).2 hid
  · exact hl
  · exact ha
  · exact hd
  · exact exists_kind_of_kindCount_pos db2 job.filing_id "balance_sheet" (by omega)
  · exact exists_kind_of_kindCount_pos db2 job.filing_id "pnl" (by omega)

/-- C8: confirmed.  When extraction returns zero lines and zero anchors,
processing still ensures the two Statement containers for the filing,
persists nothing (the anchor and line tables, and the link table, are
unchanged), and the job is reported succeeded with no error. -/
theorem C8_empty_extraction_succeeds (db : DB) (job : JobPayload) (doc : Doc)
    (hdoc : parse_mvp doc = ⟨[], []⟩) :
    ∃ c, processJob (Conn.fresh db) job (.ok doc) = .ok c
      ∧ (∃ s ∈ c.committed.statements, s.filing_id = job.filing_id ∧ s.type = "balance_sheet")
      ∧ (∃ s ∈ c.committed.statements, s.filing_id = job.filing_id ∧ s.type = "pnl")
      ∧ c.committed.anchors = db.anchors
      ∧ c.committed.statement_lines = db.statement_lines
      ∧ c.committed.datum_anchors = db.datum_anchors
      ∧ (∀ j ∈ c.committed.jobs, j.id = job.id → j.status = "succeeded" ∧ j.error = none) := by
  obtain ⟨db2, he, hj, ha, hl, hd, hn, hcb, hcp⟩ := ensure_statements_fresh_ok db job.filing_id
  have hins : insert_lines (Conn.fresh db2) job.filing_id [] [] = .ok (Conn.fresh db2) := rfl
  have hmk := mark_job_fresh db2 job.id "succeeded" none
  refine ⟨Conn.fresh (db2.markJobRow job.id "succeeded" none), ?_, ?_, ?_, ?_, ?_, ?_, ?_⟩
  · simp only [processJob, he, hdoc, hins, hmk, Except.bind, bind]
  · exact exists_kind_of_kindCount_pos db2 job.filing_id "balance_sheet" (by omega)
  · exact exists_kind_of_kindCount_pos db2 job.filing_id "pnl" (by omega)
  · exact ha
  · exact hl
  · exact hd
  · intro j hjm hid
    exact (markJobRow_mem_id db2 job.id "succeeded" none j hjm).1 hid

/-- C8 witness: the theorem applied to filingOnlyDB, its leased job, and
the empty document, on which extraction finds nothing. -/
theorem C8_witness :
    parse_mvp ([] : Doc) = ⟨[], []⟩ ∧
    (∃ c, processJob (Conn.fresh filingOnlyDB) ⟨1, "f1.pdf", 1, ""⟩ (.ok ([] : Doc)) = .ok c
      ∧ (∃ s ∈ c.committed.statements, s.filing_id = (1 : Nat) ∧ s.type = "balance_sheet")
      ∧ (∃ s ∈ c.committed.statements, s.filing_id = (1 : Nat) ∧ s.type = "pnl")
      ∧ c.committed.anchors = filingOnlyDB.anchors
      ∧ c.committed.statement_lines = filingOnlyDB.statement_lines
      ∧ c.committed.datum_anchors = filingOnlyDB.datum_anchors
      ∧ (∀ j ∈ c.committed.jobs, j.id = (1 : Nat) → j.status = "succeeded" ∧ j.error = none)) :=
  ⟨rfl, C8_empty_extraction_succeeds filingOnlyDB ⟨1, "f1.pdf", 1, ""⟩ [] rfl⟩

/-- C7: confirmed.  Any nonempty sequence of report calls for a job
identity runs to completion without raising, and afterwards every job
row with that identity carries the status and error of the last call
(last write wins); rows with other identities are untouched. -/
theorem C7_report_idempotent_last_write_wins (db : DB) (jid : Nat)
    (calls : List (String × Option String)) (last : String × Option String)
    (hlast : calls.getLast? = some last) :
    ∃ db2, runReports jid db calls = .ok db2
      ∧ (∀ j ∈ db2.jobs, j.id = jid → j.status = last.1 ∧ j.error = last.2)
      ∧ (∀ j ∈ db2.jobs, j.id ≠ jid → j ∈ db.jobs) := by
  induction calls generalizing db with
  | nil => simp at hlast
  | cons call rest ih =>
    match rest, hlast with
    | [], hlast =>
      have hl : call = last := by simpa using hlast
      subst hl
      refine ⟨db.markJobRow jid call.1 call.2, ?_, ?_, ?_⟩
      · simp only [runReports]
        rw [mark_job_fresh]
        rfl
      · intro j hjm hid
        exact (markJobRow_mem_id db jid call.1 call.2 j hjm).1 hid
      · intro j hjm hid
        exact (markJobRow_mem_id db jid call.1 call.2 j hjm).2 hid
    | r2 :: rest2, hlast =>
      have hl2 : (r2 :: rest2).getLast? = some last := by
        rw [← List.getLast?_cons_cons]
        exact hlast
      obtain ⟨db2, hrun, hfields, hkeep⟩ := ih (db.markJobRow jid call.1 call.2) hl2
      refine ⟨db2, ?_, hfields, ?_⟩
      · simp only [runReports]
        rw [mark_job_fresh]
        exact hrun
      · intro j hjm hid
        exact (markJobRow_mem_id db jid call.1 call.2 j (hkeep j hjm hid)).2 hid

/-- C7 witness: two successive reports, first succeeded then failed with
a cause; the job row ends with the fields of the second call. -/
theorem C7_witness :
    ([("succeeded", (none : Option String)), ("failed", some "boom")].getLast? = some ("failed", some "boom")) ∧
    (∃ db2, runReports 1 filingOnlyDB [("succeeded", none), ("failed", some "boom")] = .ok db2
      ∧ (∀ j ∈ db2.jobs, j.id = (1 : Nat) → j.status = "failed" ∧ j.error = some "boom")
      ∧ (∀ j ∈ db2.jobs, j.id ≠ (1 : Nat) → j ∈ filingOnlyDB.jobs)) :=
  ⟨rfl, C7_report_idempotent_last_write_wins filingOnlyDB 1
    [("succeeded", none), ("failed", some "boom")] ("failed", some "boom") rfl⟩

theorem parseStep_shape (doc : Doc) (st : List AnchorDict × List LineDict)
    (entry : String × List (List RTok)) :
    parseStep doc st entry = st ∨
    ∃ a v, parseStep doc st entry
        = (st.1 ++ [a],
           st.2 ++ [⟨"balance_sheet", none, (caption_map entry.1).1, some (caption_map entry.1).2,
                     "current", v, "EUR", "extracted", [st.1.length]⟩]) := by
  cases hf : find_first doc entry.2 with
  | none =>
    left
    simp [parseStep, hf]
  | some blk =>
    right
    refine ⟨⟨"text", blk.page + 1, blk.bbox, strTake 200 blk.text⟩,
      (match (findNums (pageText (doc.getD blk.page []))).getLast? with
       | none => none
       | some last => pyFloat? (pyCleanRaw last)), ?_⟩
    simp [parseStep, hf]

/-- C9: confirmed.  For every document, each line parse_mvp emits
declares exactly one anchor index, that index is below the length of the
returned anchors sequence, and distinct lines declare distinct indices;
since the anchor loop of insert_lines captures one identity per input
anchor, the anc_ids lookup cannot go out of range on engine output. -/
theorem C9_engine_lines_declare_valid_indices (doc : Doc) (l : LineDict)
    (hl : l ∈ (parse_mvp doc).lines) :
    (∃ k, l.anchor_indices = [k] ∧ k < (parse_mvp doc).anchors.length)
    ∧ ((parse_mvp doc).lines.map fun x => x.anchor_indices).Nodup := by
  have hLines : (parse_mvp doc).lines
      = (parseStep doc (parseStep doc ([], []) ("total_assets", [patTotalAssets, patTotalDuBilan, patSummeAktiva]))
          ("total_equity_liabilities", [patTotalEquityLiabilities, patTotalCapitauxPassif, patSummeEigenkapitalsPassiva])).2 := rfl
  have hAnchors : (parse_mvp doc).anchors
      = (parseStep doc (parseStep doc ([], []) ("total_assets", [patTotalAssets, patTotalDuBilan, patSummeAktiva]))
          ("total_equity_liabilities", [patTotalEquityLiabilities, patTotalCapitauxPassif, patSummeEigenkapitalsPassiva])).1 := rfl
  rw [hLines] at hl
  rw [hLines, hAnchors]
  rcases parseStep_shape doc (parseStep doc ([], []) ("total_assets", [patTotalAssets, patTotalDuBilan, patSummeAktiva]))
      ("total_equity_liabilities", [patTotalEquityLiabilities, patTotalCapitauxPassif, patSummeEigenkapitalsPassiva]) with h2 | ⟨a2, v2, h2⟩ <;>
  rcases parseStep_shape doc ([], []) ("total_assets", [patTotalAssets, patTotalDuBilan, patSummeAktiva]) with h1 | ⟨a1, v1, h1⟩ <;>
  rw [h2, h1] at hl ⊢ <;>
  simp only [Prod.fst, Prod.snd, List.nil_append, List.length_nil, List.length_append,
    List.length_singleton, List.mem_append, List.mem_singleton, List.map_append, List.map_cons,
    List.map_nil, List.not_mem_nil, List.mem_cons, or_false, false_or] at hl ⊢
  · subst hl
    exact ⟨⟨0, rfl, by simp⟩, by decide⟩
  · subst hl
    exact ⟨⟨0, rfl, by simp⟩, by decide⟩
  · rcases hl with hl | hl
    · subst hl
      exact ⟨⟨0, rfl, by simp⟩, by decide⟩
    · subst hl
      exact ⟨⟨1, rfl, by simp⟩, by decide⟩

/-- C9 witness: the theorem applied to the concrete one-block document
and the single line parse_mvp emits for it. -/
theorem C9_witness :
    ((⟨"balance_sheet", none, "Total Assets", some "assets", "current", none, "EUR", "extracted", [0]⟩ : LineDict)
        ∈ (parse_mvp docTotalAssetsOnly).lines) ∧
    ((∃ k, (⟨"balance_sheet", none, "Total Assets", some "assets", "current", none, "EUR", "extracted", [0]⟩ : LineDict).anchor_indices = [k]
        ∧ k < (parse_mvp docTotalAssetsOnly).anchors.length)
    ∧ ((parse_mvp docTotalAssetsOnly).lines.map fun x => x.anchor_indices).Nodup) :=
  ⟨by decide, C9_engine_lines_declare_valid_indices docTotalAssetsOnly _ (by decide)⟩

/-- C4: the claim is refuted by the code and the spec is the clear
intent, so this records the bug.  psycopg3 keeps one result per
statement of the compound BEGIN-SELECT and positions the cursor on the
first of them, the COMMAND_OK result of BEGIN, so cur.fetchone() raises
the fetch-positioning ProgrammingError on every call: lease_next never
returns a payload and never returns None, no job ever transitions to
processing, the connection state is unchanged at the raise — and since
in main the lease call stands outside the try/except, every worker
iteration dies with the committed database untouched, for any backlog
and any retrieval outcome. -/
theorem C4_lease_always_raises (db : DB) :
    fetch_one_job (Conn.fresh db)
      = .error (.programmingError "the last operation did not produce a result", Conn.fresh db)
    ∧ ∀ r, workerIteration db r
      = .error (.programmingError "the last operation did not produce a result", db) :=
  ⟨rfl, fun _ => rfl⟩

/-- C4 witness: the theorem applied to the concrete backlog holding two
queued jobs and one failed job. -/
theorem C4_witness :
    fetch_one_job (Conn.fresh backlogDB)
      = .error (.programmingError "the last operation did not produce a result", Conn.fresh backlogDB)
    ∧ ∀ r, workerIteration backlogDB r
      = .error (.programmingError "the last operation did not produce a result", backlogDB) :=
  C4_lease_always_raises backlogDB

/-- C2: the claim is refuted by the code and the spec is the clear
intent, so this records the bug.  Every lease attempt raises the
psycopg3 fetch-positioning ProgrammingError before reading any row, so
any number of callers against any backlog lease zero jobs and leave the
backlog unchanged.  The claim requires each of the M queued jobs to be
returned exactly once across the callers and min(N, M) distinct jobs to
be leased; with N, M at least 1 the code leases none — no two callers
ever receive the same job only because no caller ever receives one. -/
theorem C2_no_job_is_ever_leased (n : Nat) (db : DB) :
    leaseMany n db = ([], db) := by
  cases n with
  | zero => rfl
  | succ m => rfl

/-- C2 witness: three lease attempts against the backlog of two queued
jobs lease nothing, where the claim demands min(3, 2) = 2 distinct
leased jobs. -/
theorem C2_witness :
    leaseMany 3 backlogDB = ([], backlogDB)
    ∧ (backlogDB.jobs.filter fun j => j.status == "queued").length = 2 :=
  ⟨C2_no_job_is_ever_leased 3 backlogDB, by decide⟩
